import Mathlib

/-!
Verification of the fastapi-artive artist-portfolio backend.

This file gives a shallow embedding, in Lean 4, of the data model and of the
service/router operations of the repository, and proves (or refutes) the
frozen behavioural claims about them.

Modelling conventions, used throughout:

* A database table is a `List` of row structures, in insertion order; the ORM
  query `.first()` is `List.find?`, `.all()` is `List.filter`, `.count()` is
  `(List.filter _).length`.  SQLAlchemy mutates the row object found by a
  query and `commit` persists it; this is embedded as a `List.map` that
  rewrites the row(s) matched by the same predicate (primary keys are unique,
  so exactly one row is matched when that matters, and theorems that depend on
  it carry a `Nodup` hypothesis on the key column).
* `datetime` values are modelled as `Nat` timestamps; `datetime.utcnow()` is
  passed in as an explicit `now` argument; `timedelta` offsets are the
  corresponding number of seconds.
* Randomly generated strings (`secrets.token_urlsafe`) are passed in as
  explicit arguments; freshness is a hypothesis where a claim needs it.
* Python `Optional` values are `Option`; a Pydantic partial-update payload
  field is `none` when the field was not supplied (`exclude_unset=True`).
* Python truthiness tests on optional values are spelled out: `if user_id:`
  is false for both `None` and `0`, `if s:` is false for `None` and `""`,
  `if xs:` is false for `None` and `[]`.
* An operation that can raise `HTTPException` returns the (possibly
  unchanged) table(s) paired with `Except Nat r`, the `Nat` being the HTTP
  status code of the raised exception.
* Row structures carry the columns that the verified code paths read or
  write; columns that none of the embedded operations touch (timestamps with
  server defaults, social-media linkage, counters maintained elsewhere) are
  omitted.
-/

/-! ## Generic list lemmas -/

/-- A `find?` with a conjunctive predicate fails when the unique row matched
by the first conjunct falsifies the second conjunct. -/
theorem find?_decide_and_eq_none {α : Type} {P Q : α → Prop}
    [DecidablePred P] [DecidablePred Q] (db : List α) (a : α)
    (hq : ¬ Q a)
    (huniq : ∀ x ∈ db, P x → x = a) :
    db.find? (fun x => decide (P x ∧ Q x)) = none := by
  rw [List.find?_eq_none]
  intro x hx h
  rw [decide_eq_true_eq] at h
  exact hq ((huniq x hx h.1) ▸ h.2)

/-- Rewriting the row matched by `p` through `map` makes the rewritten row the
first match of `p`, provided it still satisfies `p`. -/
theorem find?_map_ite {α : Type} {p : α → Bool} (db : List α) (a a' : α)
    (hfind : db.find? p = some a) (hp' : p a' = true) :
    (db.map (fun b => if p b then a' else b)).find? p = some a' := by
  induction db with
  | nil => simp at hfind
  | cons x xs ih =>
    by_cases hx : p x = true
    · simp [List.find?_cons, hx, hp']
    · have hx' : p x = false := by simpa using hx
      have hfind' : xs.find? p = some a := by
        rw [List.find?_cons] at hfind
        simpa [hx'] using hfind
      simp [List.find?_cons, hx', ih hfind']

/-- Variant of `find?_map_ite` where the matched row is modified in place by
`f` instead of being replaced by a constant. -/
theorem find?_map_modify {α : Type} {p : α → Bool} (db : List α) (a : α) (f : α → α)
    (hfind : db.find? p = some a) (hpf : p (f a) = true) :
    (db.map (fun b => if p b then f b else b)).find? p = some (f a) := by
  induction db with
  | nil => simp at hfind
  | cons x xs ih =>
    by_cases hx : p x = true
    · have hxa : x = a := by
        rw [List.find?_cons] at hfind
        simpa [hx] using hfind
      subst hxa
      simp [List.find?_cons, hx, hpf]
    · have hx' : p x = false := by simpa using hx
      have hfind' : xs.find? p = some a := by
        rw [List.find?_cons] at hfind
        simpa [hx'] using hfind
      simp [List.find?_cons, hx', ih hfind']

/-- Two members of a list mapping to the same key are equal when the mapped
keys are `Nodup`. -/
theorem eq_of_mem_of_nodup_key {α : Type} {β : Type} {key : α → β}
    {db : List α} (hnodup : (db.map key).Nodup)
    {x y : α} (hx : x ∈ db) (hy : y ∈ db) (hkey : key x = key y) : x = y :=
  List.inj_on_of_nodup_map hnodup hx hy hkey

/-- A list containing two distinct elements has length at least two. -/
theorem two_le_length_of_mem {α : Type} {l : List α} {a b : α}
    (ha : a ∈ l) (hb : b ∈ l) (hne : a ≠ b) : 2 ≤ l.length := by
  induction l with
  | nil => cases ha
  | cons x xs ih =>
    rcases List.mem_cons.1 ha with rfl | ha'
    · rcases List.mem_cons.1 hb with rfl | hb'
      · exact absurd rfl hne
      · have := List.length_pos_of_mem hb'
        simpa [Nat.succ_le_succ_iff] using this
    · have := List.length_pos_of_mem ha'
      simpa [Nat.succ_le_succ_iff] using this

/-! ## Python semantics helpers -/

/-- Python truthiness of an optional integer: `None` and `0` are falsy. -/
def truthyInt : Option Nat → Bool
  | none => false
  | some n => decide (n ≠ 0)

/-- Python truthiness of an optional string: `None` and `""` are falsy. -/
def truthyStr : Option String → Bool
  | none => false
  | some s => decide (s ≠ "")

/-- Python `max(xs, key=k)`: the first element attaining the maximal key
(`max` only replaces its candidate on a strictly greater key). Partial in
Python on an empty sequence, hence `Option` here; the callers guard with
`if artworks:`. -/
def pyMaxBy {α : Type} (k : α → Nat) : List α → Option α
  | [] => none
  | x :: xs => some (xs.foldl (fun acc y => if k y > k acc then y else acc) x)

/-- Python `str.lower()`, character by character (the strings involved are
ASCII, where this agrees with Python). -/
def pyLower (s : String) : String := String.mk (s.data.map Char.toLower)

/-- Python `str.replace(" ", "-")`: both pattern and replacement are single
characters, so the substring replacement is a character map. -/
def pyReplaceSpaceDash (s : String) : String :=
  String.mk (s.data.map (fun c => if c = ' ' then '-' else c))

/-! ## Data model: artworks (models/artwork.py) -/

/-- Enumeration `ArtworkStatus` of models/artwork.py. -/
inductive ArtworkStatus
  | WORK_IN_PROGRESS
  | COMPLETED
  | ARCHIVED
  deriving DecidableEq, Repr

/-- Enumeration `ArtworkPrivacy` of models/artwork.py. -/
inductive ArtworkPrivacy
  | PUBLIC
  | PRIVATE
  | UNLISTED
  deriving DecidableEq, Repr

/-- Row of the `artworks` table (models/artwork.py, class `Artwork`), with the
columns the verified operations read or write. -/
structure Artwork where
  id : Nat
  user_id : Nat
  title : String
  description : Option String := none
  medium : Option String := none
  size : Option String := none
  year : Option String := none
  thumbnail_url : Option String := none
  work_in_progress_url : Option String := none
  status : ArtworkStatus := ArtworkStatus.WORK_IN_PROGRESS
  privacy : ArtworkPrivacy := ArtworkPrivacy.PUBLIC
  completed_at : Option Nat := none
  estimated_completion : Option Nat := none
  view_count : Nat := 0
  like_count : Nat := 0
  created_at : Nat := 0
  deriving DecidableEq, Repr

/-- Row of the `artwork_histories` table (models/artwork.py, class
`ArtworkHistory`), with the columns the verified operations touch. -/
structure ArtworkHistoryRow where
  id : Nat
  artwork_id : Nat
  deriving DecidableEq, Repr

/-- Row of the `users` table (models/user.py, class `User`), with the columns
the verified operations touch. -/
structure UserRow where
  id : Nat
  email : String
  password : String
  name : String
  slug : String
  is_verified : Bool := false
  deriving DecidableEq, Repr

/-! ## ArtworkService.get_artwork_by_id and the get_artwork route -/

/-- `ArtworkService.get_artwork_by_id` (services/artwork_service.py).
`if user_id:` is Python truthiness, so a `0` id takes the anonymous branch
exactly like `None`; both anonymous branches are the query filtered to
`privacy == PUBLIC`. -/
def get_artwork_by_id (db : List Artwork) (artwork_id : Nat)
    (user_id : Option Nat) : Option Artwork :=
  if truthyInt user_id then
    match db.find? (fun a => decide (a.id = artwork_id)) with
    | some artwork =>
        if artwork.user_id = user_id.getD 0 ∨ artwork.privacy = ArtworkPrivacy.PUBLIC then
          some artwork
        else none
    | none => none
  else
    db.find? (fun a => decide (a.id = artwork_id ∧ a.privacy = ArtworkPrivacy.PUBLIC))

/-- `ArtworkService.increment_view_count` (services/artwork_service.py). -/
def increment_view_count (db : List Artwork) (artwork_id : Nat) :
    List Artwork × Bool :=
  match db.find? (fun a => decide (a.id = artwork_id)) with
  | some _ =>
      (db.map (fun a =>
        if decide (a.id = artwork_id) then { a with view_count := a.view_count + 1 } else a),
       true)
  | none => (db, false)

/-- Route `GET /{artwork_id}` (routers/artwork.py, `get_artwork`): resolves
visibility through `get_artwork_by_id`, answers 404 when no artwork comes
back, and increments the view count unless the viewer owns the artwork. -/
def get_artwork (db : List Artwork) (artwork_id : Nat)
    (current_user : Option UserRow) : List Artwork × Except Nat Artwork :=
  let user_id := current_user.map (fun u => u.id)
  match get_artwork_by_id db artwork_id user_id with
  | none => (db, Except.error 404)
  | some artwork =>
      match current_user with
      | none => ((increment_view_count db artwork_id).1, Except.ok artwork)
      | some u =>
          if u.id ≠ artwork.user_id then
            ((increment_view_count db artwork_id).1, Except.ok artwork)
          else (db, Except.ok artwork)

/-- Helper: the row returned by `find?` on the artwork id is the unique row
with that id once the id column is `Nodup`. -/
theorem artwork_find?_uniq {db : List Artwork} {a : Artwork} {artwork_id : Nat}
    (hnodup : (db.map (fun x => x.id)).Nodup)
    (hfind : db.find? (fun x => decide (x.id = artwork_id)) = some a) :
    ∀ x ∈ db, x.id = artwork_id → x = a := by
  intro x hx hxid
  have hamem : a ∈ db := List.mem_of_find?_eq_some hfind
  have haid : a.id = artwork_id := by
    have := List.find?_some hfind
    simpa using this
  exact eq_of_mem_of_nodup_key hnodup hx hamem (by rw [hxid, haid])

/-- C1: a private artwork is returned by `get_artwork_by_id` exactly for its
owner; any other logged-in caller and the anonymous caller get no artwork
back, and the `get_artwork` route turns that into a 404. -/
theorem private_artwork_owner_only
    (db : List Artwork) (a : Artwork) (artwork_id : Nat)
    (hnodup : (db.map (fun x => x.id)).Nodup)
    (hfind : db.find? (fun x => decide (x.id = artwork_id)) = some a)
    (hpriv : a.privacy = ArtworkPrivacy.PRIVATE)
    (howner : a.user_id ≠ 0) :
    get_artwork_by_id db artwork_id (some a.user_id) = some a ∧
    (∀ uid, uid ≠ a.user_id → get_artwork_by_id db artwork_id (some uid) = none) ∧
    get_artwork_by_id db artwork_id none = none ∧
    (∀ u : UserRow, u.id = a.user_id → (get_artwork db artwork_id (some u)).2 = Except.ok a) ∧
    (∀ u : UserRow, u.id ≠ a.user_id → (get_artwork db artwork_id (some u)).2 = Except.error 404) ∧
    (get_artwork db artwork_id none).2 = Except.error 404 := by
  have huniq := artwork_find?_uniq hnodup hfind
  have hanon : db.find?
      (fun x => decide (x.id = artwork_id ∧ x.privacy = ArtworkPrivacy.PUBLIC)) = none := by
    rw [List.find?_eq_none]
    intro x hx h
    rw [decide_eq_true_eq] at h
    have hxa := huniq x hx h.1
    have hpub : a.privacy = ArtworkPrivacy.PUBLIC := hxa ▸ h.2
    rw [hpriv] at hpub
    cases hpub
  have hown : get_artwork_by_id db artwork_id (some a.user_id) = some a := by
    have ht : truthyInt (some a.user_id) = true := by simp [truthyInt, howner]
    simp [get_artwork_by_id, ht, hfind]
  have hother : ∀ uid, uid ≠ a.user_id → get_artwork_by_id db artwork_id (some uid) = none := by
    intro uid hne
    by_cases h0 : uid = 0
    · subst h0
      have hred : get_artwork_by_id db artwork_id (some 0) =
          db.find? (fun x => decide (x.id = artwork_id ∧ x.privacy = ArtworkPrivacy.PUBLIC)) := rfl
      rw [hred, hanon]
    · have ht : truthyInt (some uid) = true := by simp [truthyInt, h0]
      simp only [get_artwork_by_id, ht, if_true, hfind]
      rw [if_neg]
      rintro (h | h)
      · exact hne ((by simpa using h : a.user_id = uid)).symm
      · rw [hpriv] at h; cases h
  have hnone : get_artwork_by_id db artwork_id none = none := by
    have hred : get_artwork_by_id db artwork_id none =
        db.find? (fun x => decide (x.id = artwork_id ∧ x.privacy = ArtworkPrivacy.PUBLIC)) := rfl
    rw [hred, hanon]
  refine ⟨hown, hother, hnone, ?_, ?_, ?_⟩
  · intro u hu
    simp only [get_artwork, Option.map]
    rw [hu, hown]
    simp [hu]
  · intro u hu
    simp only [get_artwork, Option.map]
    rw [hother u.id hu]
  · simp only [get_artwork, Option.map]
    rw [hnone]

/-- Concrete private artwork used to instantiate the C1 theorem. -/
def c1_artwork : Artwork :=
  { id := 1, user_id := 7, title := "Night Garden", privacy := ArtworkPrivacy.PRIVATE }

/-- Witness for C1 at a one-row table: owner id 7 sees the private artwork,
user 3 and the anonymous caller do not, and the route answers 404. -/
theorem private_artwork_owner_only_witness :
    get_artwork_by_id [c1_artwork] 1 (some 7) = some c1_artwork ∧
    get_artwork_by_id [c1_artwork] 1 (some 3) = none ∧
    get_artwork_by_id [c1_artwork] 1 none = none ∧
    (get_artwork [c1_artwork] 1 none).2 = Except.error 404 := by
  have h := private_artwork_owner_only [c1_artwork] c1_artwork 1
    (by decide) (by decide) rfl (by decide)
  exact ⟨h.1, h.2.1 3 (by decide), h.2.2.1, h.2.2.2.2.2⟩

/-! ## ArtworkService.update_artwork -/

/-- Pydantic schema `ArtworkUpdate` (schemas/artwork.py); every field is
optional and `none` means "not supplied" (`exclude_unset=True`). -/
structure ArtworkUpdate where
  title : Option String := none
  description : Option String := none
  medium : Option String := none
  size : Option String := none
  year : Option String := none
  thumbnail_url : Option String := none
  work_in_progress_url : Option String := none
  status : Option ArtworkStatus := none
  privacy : Option ArtworkPrivacy := none
  completed_at : Option Nat := none
  estimated_completion : Option Nat := none
  deriving DecidableEq, Repr

/-- Update step for one optional column: a supplied value overwrites, an
unsupplied field keeps the stored value. -/
def updOpt {α : Type} (new old : Option α) : Option α :=
  match new with
  | some v => some v
  | none => old

/-- The `for field, value in update_data.items(): setattr(artwork, field,
value)` loop of `ArtworkService.update_artwork`: each supplied field of the
payload overwrites the corresponding column. -/
def applyArtworkUpdate (a : Artwork) (u : ArtworkUpdate) : Artwork :=
  { a with
    title := u.title.getD a.title
    description := updOpt u.description a.description
    medium := updOpt u.medium a.medium
    size := updOpt u.size a.size
    year := updOpt u.year a.year
    thumbnail_url := updOpt u.thumbnail_url a.thumbnail_url
    work_in_progress_url := updOpt u.work_in_progress_url a.work_in_progress_url
    status := u.status.getD a.status
    privacy := u.privacy.getD a.privacy
    completed_at := updOpt u.completed_at a.completed_at
    estimated_completion := updOpt u.estimated_completion a.estimated_completion }

/-- `ArtworkService.update_artwork` (services/artwork_service.py): 404 when no
row matches id and owner, partial field assignment, then the auto-stamp
`if artwork_data.status == COMPLETED and not artwork.completed_at`. -/
def update_artwork (db : List Artwork) (artwork_id : Nat)
    (artwork_data : ArtworkUpdate) (user_id : Nat) (now : Nat) :
    List Artwork × Except Nat Artwork :=
  match db.find? (fun a => decide (a.id = artwork_id ∧ a.user_id = user_id)) with
  | none => (db, Except.error 404)
  | some artwork =>
      let artwork := applyArtworkUpdate artwork artwork_data
      let artwork :=
        if artwork_data.status = some ArtworkStatus.COMPLETED ∧ artwork.completed_at = none then
          { artwork with completed_at := some now }
        else artwork
      (db.map (fun b =>
          if decide (b.id = artwork_id ∧ b.user_id = user_id) then artwork else b),
       Except.ok artwork)

/-- C2: on an owned artwork with `completed_at` unset, an update carrying
`status = completed` (and no explicit `completed_at`) stamps `completed_at`
with the current time; a second such update leaves the stamp unchanged. -/
theorem update_artwork_stamps_completed_at_once
    (db : List Artwork) (a : Artwork) (artwork_id user_id now1 now2 : Nat)
    (u1 u2 : ArtworkUpdate)
    (hfind : db.find? (fun x => decide (x.id = artwork_id ∧ x.user_id = user_id)) = some a)
    (hunset : a.completed_at = none)
    (h1s : u1.status = some ArtworkStatus.COMPLETED) (h1c : u1.completed_at = none)
    (h2s : u2.status = some ArtworkStatus.COMPLETED) (h2c : u2.completed_at = none) :
    ∃ db1 a1, update_artwork db artwork_id u1 user_id now1 = (db1, Except.ok a1) ∧
      a1.completed_at = some now1 ∧
      ∃ db2 a2, update_artwork db1 artwork_id u2 user_id now2 = (db2, Except.ok a2) ∧
        a2.completed_at = some now1 := by
  have hpa := List.find?_some hfind
  rw [decide_eq_true_eq] at hpa
  have hA1c : (applyArtworkUpdate a u1).completed_at = none := by
    simp [applyArtworkUpdate, updOpt, h1c, hunset]
  have e1 : update_artwork db artwork_id u1 user_id now1 =
      (db.map (fun b => if decide (b.id = artwork_id ∧ b.user_id = user_id) then
          { applyArtworkUpdate a u1 with completed_at := some now1 } else b),
       Except.ok { applyArtworkUpdate a u1 with completed_at := some now1 }) := by
    unfold update_artwork
    rw [hfind]
    dsimp only
    rw [if_pos ⟨h1s, hA1c⟩]
  refine ⟨_, _, e1, rfl, ?_⟩
  have hp1 : (fun x : Artwork => decide (x.id = artwork_id ∧ x.user_id = user_id))
      { applyArtworkUpdate a u1 with completed_at := some now1 } = true := by
    rw [decide_eq_true_eq]
    exact ⟨hpa.1, hpa.2⟩
  have hfind1 := find?_map_ite db a
    { applyArtworkUpdate a u1 with completed_at := some now1 } hfind hp1
  have hA2c : (applyArtworkUpdate
      { applyArtworkUpdate a u1 with completed_at := some now1 } u2).completed_at
      = some now1 := by
    simp [applyArtworkUpdate, updOpt, h2c]
  have e2 : update_artwork
      (db.map (fun b => if decide (b.id = artwork_id ∧ b.user_id = user_id) then
          { applyArtworkUpdate a u1 with completed_at := some now1 } else b))
      artwork_id u2 user_id now2 =
      ((db.map (fun b => if decide (b.id = artwork_id ∧ b.user_id = user_id) then
          { applyArtworkUpdate a u1 with completed_at := some now1 } else b)).map
         (fun b => if decide (b.id = artwork_id ∧ b.user_id = user_id) then
          applyArtworkUpdate { applyArtworkUpdate a u1 with completed_at := some now1 } u2
          else b),
       Except.ok (applyArtworkUpdate
         { applyArtworkUpdate a u1 with completed_at := some now1 } u2)) := by
    unfold update_artwork
    rw [hfind1]
    dsimp only
    rw [if_neg]
    rintro ⟨-, hc⟩
    rw [hA2c] at hc
    cases hc
  exact ⟨_, _, e2, hA2c⟩

/-- Concrete artwork for the C2 witness: work in progress, no completion
date. -/
def c2_artwork : Artwork := { id := 1, user_id := 7, title := "Sketch" }

/-- Concrete update payload for the C2 witness: only `status = completed`. -/
def c2_upd : ArtworkUpdate := { status := some ArtworkStatus.COMPLETED }

/-- Witness for C2: updating the concrete artwork to completed at time 100
stamps 100, and repeating the update at time 200 keeps the stamp at 100. -/
theorem update_artwork_stamps_completed_at_once_witness :
    ∃ db1 a1, update_artwork [c2_artwork] 1 c2_upd 7 100 = (db1, Except.ok a1) ∧
      a1.completed_at = some 100 ∧
      ∃ db2 a2, update_artwork db1 1 c2_upd 7 200 = (db2, Except.ok a2) ∧
        a2.completed_at = some 100 :=
  update_artwork_stamps_completed_at_once [c2_artwork] c2_artwork 1 7 100 200
    c2_upd c2_upd (by decide) rfl rfl rfl rfl rfl

/-! ## Data model: blog (models/blog.py, schemas/blog.py) -/

/-- The special `post_type` value that is limited to one post per user. -/
def STUDIO : String := "STUDIO"

/-- Row of the `blog_posts` table (models/blog.py, class `BlogPost`), with the
columns the verified operations touch.  `tags` is stored by the code as a
JSON string; the embedding keeps the decoded list, which carries the same
data. -/
structure BlogPost where
  id : Nat
  user_id : Nat
  title : String
  content : String
  excerpt : Option String := none
  post_type : String := "BLOG"
  tags : Option (List String) := none
  featured_image : Option String := none
  is_published : Bool := false
  is_public : Bool := true
  is_pinned : Bool := false
  published_at : Option Nat := none
  scheduled_date : Option Nat := none
  view_count : Nat := 0
  deriving DecidableEq, Repr

/-- Pydantic schema `BlogPostCreate` (schemas/blog.py). -/
structure BlogPostCreate where
  title : String
  content : String
  excerpt : Option String := none
  post_type : String := "BLOG"
  tags : Option (List String) := none
  featured_image : Option String := none
  is_public : Bool := true
  is_pinned : Bool := false
  is_published : Bool := false
  scheduled_date : Option Nat := none
  deriving DecidableEq, Repr

/-- Pydantic schema `BlogPostUpdate` (schemas/blog.py); `none` means "field
not supplied". -/
structure BlogPostUpdate where
  title : Option String := none
  content : Option String := none
  excerpt : Option String := none
  post_type : Option String := none
  tags : Option (List String) := none
  featured_image : Option String := none
  is_published : Option Bool := none
  is_public : Option Bool := none
  is_pinned : Option Bool := none
  scheduled_date : Option Nat := none
  deriving DecidableEq, Repr

/-- A STUDIO post of the given user. -/
def isStudioOf (user_id : Nat) (b : BlogPost) : Prop :=
  b.user_id = user_id ∧ b.post_type = STUDIO

instance (user_id : Nat) (b : BlogPost) : Decidable (isStudioOf user_id b) := by
  unfold isStudioOf; infer_instance

/-- The per-user STUDIO singleton invariant: any two STUDIO posts of the same
user are the same post. -/
def studioAtMostOne (db : List BlogPost) (user_id : Nat) : Prop :=
  ∀ b1 ∈ db, ∀ b2 ∈ db, isStudioOf user_id b1 → isStudioOf user_id b2 → b1 = b2

instance (db : List BlogPost) (user_id : Nat) : Decidable (studioAtMostOne db user_id) := by
  unfold studioAtMostOne; infer_instance

/-- Route `POST /posts` (routers/blog.py, `create_blog_post`): a second
STUDIO post for the user is rejected with 400 by query-then-insert; otherwise
the row is appended.  Python truthiness applies to `if post.tags:`, and
`published_at` is the scheduled date, else the current time, when publishing
immediately. -/
def create_blog_post (db : List BlogPost) (post : BlogPostCreate)
    (current_user_id : Nat) (now : Nat) (new_id : Nat) :
    List BlogPost × Except Nat BlogPost :=
  if post.post_type = STUDIO ∧
      (db.find? (fun b => decide (b.user_id = current_user_id ∧ b.post_type = STUDIO))).isSome
  then (db, Except.error 400)
  else
    let tags_json := match post.tags with
      | some l => if l = [] then none else some l
      | none => none
    let published_at : Option Nat :=
      if post.is_published then
        match post.scheduled_date with
        | some d => some d
        | none => some now
      else none
    let db_post : BlogPost :=
      { id := new_id
        user_id := current_user_id
        title := post.title
        content := post.content
        excerpt := post.excerpt
        post_type := post.post_type
        tags := tags_json
        featured_image := post.featured_image
        is_published := post.is_published
        is_public := post.is_public
        is_pinned := post.is_pinned
        published_at := published_at
        scheduled_date := post.scheduled_date }
    (db ++ [db_post], Except.ok db_post)

/-- The field-assignment loop of `update_blog_post`, after the tags JSON
encoding step. -/
def applyBlogUpdate (b : BlogPost) (u : BlogPostUpdate) : BlogPost :=
  { b with
    title := u.title.getD b.title
    content := u.content.getD b.content
    excerpt := updOpt u.excerpt b.excerpt
    post_type := u.post_type.getD b.post_type
    tags := updOpt u.tags b.tags
    featured_image := updOpt u.featured_image b.featured_image
    is_published := u.is_published.getD b.is_published
    is_public := u.is_public.getD b.is_public
    is_pinned := u.is_pinned.getD b.is_pinned
    scheduled_date := updOpt u.scheduled_date b.scheduled_date }

/-- Route `PUT /posts/{post_id}` (routers/blog.py, `update_blog_post`):
404 when the post is missing, 403 for a non-owner, 400 when renaming a
STUDIO post's type away from STUDIO (`post_update.post_type` under Python
truthiness), 400 when turning a non-STUDIO post into STUDIO while another
STUDIO post of the user exists, else partial field assignment. -/
def update_blog_post (db : List BlogPost) (post_id : Nat) (post_update : BlogPostUpdate)
    (current_user_id : Nat) : List BlogPost × Except Nat BlogPost :=
  match db.find? (fun b => decide (b.id = post_id)) with
  | none => (db, Except.error 404)
  | some post =>
      if post.user_id ≠ current_user_id then (db, Except.error 403)
      else if post.post_type = STUDIO ∧ truthyStr post_update.post_type = true ∧
          post_update.post_type ≠ some STUDIO then
        (db, Except.error 400)
      else if post.post_type ≠ STUDIO ∧ post_update.post_type = some STUDIO ∧
          (db.find? (fun b => decide (b.user_id = current_user_id ∧
            b.post_type = STUDIO ∧ b.id ≠ post_id))).isSome then
        (db, Except.error 400)
      else
        let post' := applyBlogUpdate post post_update
        (db.map (fun b => if decide (b.id = post_id) then post' else b),
         Except.ok post')

/-- C3: the per-user STUDIO singleton.  A second STUDIO creation for the same
user is rejected with 400 and inserts no row; turning a non-STUDIO post into
STUDIO is rejected with 400 when the user already has a STUDIO post; and both
handlers preserve the at-most-one-STUDIO-post-per-user invariant. -/
theorem studio_singleton
    (db : List BlogPost) (current_user_id post_id now new_id : Nat)
    (post : BlogPostCreate) (u : BlogPostUpdate)
    (hnodup : (db.map (fun x => x.id)).Nodup) :
    (post.post_type = STUDIO → (∃ b ∈ db, isStudioOf current_user_id b) →
      create_blog_post db post current_user_id now new_id = (db, Except.error 400)) ∧
    (∀ p0, db.find? (fun b => decide (b.id = post_id)) = some p0 →
      p0.user_id = current_user_id → p0.post_type ≠ STUDIO →
      u.post_type = some STUDIO →
      (∃ b ∈ db, isStudioOf current_user_id b) →
      update_blog_post db post_id u current_user_id = (db, Except.error 400)) ∧
    (∀ uid, studioAtMostOne db uid →
      studioAtMostOne (create_blog_post db post current_user_id now new_id).1 uid ∧
      studioAtMostOne (update_blog_post db post_id u current_user_id).1 uid) := by
  refine ⟨?_, ?_, ?_⟩
  · -- (a) duplicate STUDIO create is rejected with the table unchanged
    intro hpt ⟨b, hb, hbs⟩
    have hsome : (db.find? (fun b => decide (b.user_id = current_user_id ∧
        b.post_type = STUDIO))).isSome := by
      rw [List.find?_isSome]
      exact ⟨b, hb, decide_eq_true ⟨hbs.1, hbs.2⟩⟩
    unfold create_blog_post
    rw [if_pos ⟨hpt, hsome⟩]
  · -- (b) renaming a non-STUDIO post to STUDIO is rejected when one exists
    intro p0 hfind howner hp0 hupt ⟨b, hb, hbs⟩
    have hp0id : p0.id = post_id := by
      have := List.find?_some hfind
      simpa using this
    have hbig : b.id ≠ post_id := by
      intro hcontra
      have hbp0 : b = p0 := eq_of_mem_of_nodup_key hnodup hb
        (List.mem_of_find?_eq_some hfind) (by rw [hcontra, hp0id])
      exact hp0 (hbp0 ▸ hbs.2)
    have hsome : (db.find? (fun x => decide (x.user_id = current_user_id ∧
        x.post_type = STUDIO ∧ x.id ≠ post_id))).isSome := by
      rw [List.find?_isSome]
      exact ⟨b, hb, decide_eq_true ⟨hbs.1, hbs.2, hbig⟩⟩
    unfold update_blog_post
    rw [hfind]
    dsimp only
    rw [if_neg (by rw [howner]; exact fun h => h rfl)]
    rw [if_neg (by rintro ⟨h, -⟩; exact hp0 h)]
    rw [if_pos ⟨hp0, hupt, hsome⟩]
  · -- (c) both handlers preserve the invariant
    intro uid hinv
    constructor
    · -- create_blog_post
      by_cases hC : post.post_type = STUDIO ∧
          (db.find? (fun b => decide (b.user_id = current_user_id ∧
            b.post_type = STUDIO))).isSome
      · unfold create_blog_post
        rw [if_pos hC]
        exact hinv
      · unfold create_blog_post
        rw [if_neg hC]
        dsimp only
        intro b1 hb1 b2 hb2 hs1 hs2
        have hnew : ∀ c ∈ db, isStudioOf uid c →
            post.post_type = STUDIO → uid = current_user_id → False := by
          intro c hc hcs hpt huid
          apply hC
          refine ⟨hpt, ?_⟩
          rw [List.find?_isSome]
          exact ⟨c, hc, decide_eq_true ⟨huid ▸ hcs.1, hcs.2⟩⟩
        rcases List.mem_append.1 hb1 with hb1' | hb1' <;>
          rcases List.mem_append.1 hb2 with hb2' | hb2'
        · exact hinv b1 hb1' b2 hb2' hs1 hs2
        · rw [List.mem_singleton.1 hb2'] at hs2 ⊢
          exact (hnew b1 hb1' hs1 hs2.2 hs2.1.symm).elim
        · rw [List.mem_singleton.1 hb1'] at hs1 ⊢
          exact (hnew b2 hb2' hs2 hs1.2 hs1.1.symm).elim
        · rw [List.mem_singleton.1 hb1', List.mem_singleton.1 hb2']
    · -- update_blog_post
      cases hfind : db.find? (fun b => decide (b.id = post_id)) with
      | none =>
          unfold update_blog_post
          rw [hfind]
          exact hinv
      | some p0 =>
          have hp0mem := List.mem_of_find?_eq_some hfind
          have hp0id : p0.id = post_id := by
            have := List.find?_some hfind
            simpa using this
          by_cases h403 : p0.user_id ≠ current_user_id
          · unfold update_blog_post
            rw [hfind]
            dsimp only
            rw [if_pos h403]
            exact hinv
          · have howner : p0.user_id = current_user_id := not_not.1 h403
            by_cases hG1 : p0.post_type = STUDIO ∧ truthyStr u.post_type = true ∧
                u.post_type ≠ some STUDIO
            · unfold update_blog_post
              rw [hfind]
              dsimp only
              rw [if_neg h403, if_pos hG1]
              exact hinv
            · by_cases hG2 : p0.post_type ≠ STUDIO ∧ u.post_type = some STUDIO ∧
                  (db.find? (fun b => decide (b.user_id = current_user_id ∧
                    b.post_type = STUDIO ∧ b.id ≠ post_id))).isSome
              · unfold update_blog_post
                rw [hfind]
                dsimp only
                rw [if_neg h403, if_neg hG1, if_pos hG2]
                exact hinv
              · have hstep : update_blog_post db post_id u current_user_id =
                    (db.map (fun b => if decide (b.id = post_id) then
                      applyBlogUpdate p0 u else b),
                     Except.ok (applyBlogUpdate p0 u)) := by
                  unfold update_blog_post
                  rw [hfind]
                  dsimp only
                  rw [if_neg h403, if_neg hG1, if_neg hG2]
                rw [hstep]
                -- the replaced row cannot coexist with a distinct STUDIO row
                have hkey : ∀ c ∈ db, c.id ≠ post_id → isStudioOf uid c →
                    isStudioOf uid (applyBlogUpdate p0 u) → False := by
                  intro c hc hcid hcs hxs
                  have huid : uid = current_user_id := by
                    have : p0.user_id = uid := hxs.1
                    rw [← this, howner]
                  by_cases hp0t : p0.post_type = STUDIO
                  · have hcp0 : c = p0 :=
                      hinv c hc p0 hp0mem hcs ⟨howner.trans huid.symm, hp0t⟩
                    exact hcid (hcp0 ▸ hp0id)
                  · have hupt : u.post_type = some STUDIO := by
                      have hx2 := hxs.2
                      cases hu : u.post_type with
                      | none =>
                          rw [show (applyBlogUpdate p0 u).post_type
                              = u.post_type.getD p0.post_type from rfl, hu] at hx2
                          exact absurd hx2 hp0t
                      | some s =>
                          rw [show (applyBlogUpdate p0 u).post_type
                              = u.post_type.getD p0.post_type from rfl, hu] at hx2
                          have hsS : s = STUDIO := by simpa using hx2
                          rw [hsS]
                    apply hG2
                    refine ⟨hp0t, hupt, ?_⟩
                    rw [List.find?_isSome]
                    exact ⟨c, hc, decide_eq_true ⟨huid ▸ hcs.1, hcs.2, hcid⟩⟩
                intro b1 hb1 b2 hb2 hs1 hs2
                rcases List.mem_map.1 hb1 with ⟨c1, hc1, hfc1⟩
                rcases List.mem_map.1 hb2 with ⟨c2, hc2, hfc2⟩
                by_cases hq1 : c1.id = post_id <;> by_cases hq2 : c2.id = post_id
                · rw [← hfc1, ← hfc2]
                  simp [hq1, hq2]
                · rw [← hfc2] at hs2
                  rw [← hfc1] at hs1
                  rw [if_pos (decide_eq_true hq1)] at hs1
                  rw [if_neg (by simpa using hq2)] at hs2
                  exact (hkey c2 hc2 hq2 hs2 hs1).elim
                · rw [← hfc2] at hs2
                  rw [← hfc1] at hs1
                  rw [if_neg (by simpa using hq1)] at hs1
                  rw [if_pos (decide_eq_true hq2)] at hs2
                  exact (hkey c1 hc1 hq1 hs1 hs2).elim
                · rw [← hfc1] at hs1 ⊢
                  rw [← hfc2] at hs2 ⊢
                  rw [if_neg (by simpa using hq1)] at hs1 ⊢
                  rw [if_neg (by simpa using hq2)] at hs2 ⊢
                  exact hinv c1 hc1 c2 hc2 hs1 hs2

/-- Concrete STUDIO post of user 7 for the C3 witness. -/
def c3_studio : BlogPost :=
  { id := 1, user_id := 7, title := "My studio", content := "studio text",
    post_type := STUDIO }

/-- Concrete ordinary blog post of user 7 for the C3 witness. -/
def c3_blogpost : BlogPost :=
  { id := 2, user_id := 7, title := "A note", content := "note text" }

/-- Concrete creation payload for a second STUDIO post. -/
def c3_post : BlogPostCreate :=
  { title := "Second studio", content := "more", post_type := STUDIO }

/-- Concrete update payload turning a post into STUDIO. -/
def c3_upd : BlogPostUpdate := { post_type := some STUDIO }

/-- Witness for C3: with user's 7 STUDIO post present, a second STUDIO create
and an update of post 2 to STUDIO are both rejected with 400 and leave the
table unchanged, and the update handler preserves the invariant. -/
theorem studio_singleton_witness :
    create_blog_post [c3_studio, c3_blogpost] c3_post 7 50 3
      = ([c3_studio, c3_blogpost], Except.error 400) ∧
    update_blog_post [c3_studio, c3_blogpost] 2 c3_upd 7
      = ([c3_studio, c3_blogpost], Except.error 400) ∧
    studioAtMostOne (update_blog_post [c3_studio, c3_blogpost] 2 c3_upd 7).1 7 := by
  have h := studio_singleton [c3_studio, c3_blogpost] 7 2 50 3 c3_post c3_upd (by decide)
  exact ⟨h.1 (by decide) ⟨c3_studio, by decide, by decide⟩,
    h.2.1 c3_blogpost (by decide) rfl (by decide) rfl ⟨c3_studio, by decide, by decide⟩,
    (h.2.2 7 (by decide)).2⟩

/-! ## AuthService: email lookup and e-mail verification tokens -/

/-- Row of the `email_verification_tokens` table
(models/email_verification.py); `is_used` has column default `False`. -/
structure EmailVerificationToken where
  token : String
  email : String
  expiry_date : Nat
  is_used : Bool := false
  deriving DecidableEq, Repr

/-- `AuthService.get_user_by_email` (services/auth_service.py). -/
def get_user_by_email (users : List UserRow) (email : String) : Option UserRow :=
  users.find? (fun u => decide (u.email = email))

/-- `AuthService.get_user_by_slug` (services/auth_service.py). -/
def get_user_by_slug (users : List UserRow) (slug : String) : Option UserRow :=
  users.find? (fun u => decide (u.slug = slug))

/-- The `timedelta(hours=24)` validity window of a verification token, in
seconds. -/
def verificationTokenTTL : Nat := 24 * 60 * 60

/-- `AuthService.create_verification_token` (services/auth_service.py):
deletes every token of the email, then inserts a fresh one expiring 24 hours
from now.  The random token string is the `tok` argument. -/
def create_verification_token (tokens : List EmailVerificationToken)
    (email tok : String) (now : Nat) : List EmailVerificationToken × String :=
  let tokens := tokens.filter (fun t => decide (t.email ≠ email))
  (tokens ++ [{ token := tok, email := email, expiry_date := now + verificationTokenTTL }],
   tok)

/-- `AuthService.verify_email_token` (services/auth_service.py): looks up an
unused, unexpired row with the given token string; on a hit with a known
user, marks the user verified and the token used; otherwise reports failure
with nothing changed. -/
def verify_email_token (users : List UserRow) (tokens : List EmailVerificationToken)
    (token : String) (now : Nat) :
    (List UserRow × List EmailVerificationToken) × Bool :=
  match tokens.find? (fun t =>
      decide (t.token = token ∧ t.is_used = false ∧ now < t.expiry_date)) with
  | none => ((users, tokens), false)
  | some vt =>
      match get_user_by_email users vt.email with
      | none => ((users, tokens), false)
      | some _ =>
          ((users.map (fun u =>
              if decide (u.email = vt.email) then { u with is_verified := true } else u),
            tokens.map (fun t =>
              if decide (t.token = vt.token) then { t with is_used := true } else t)),
           true)

/-- C4: an expired or already-used verification token fails and changes
nothing; a freshly issued token of an existing user verifies exactly once:
the first call marks the user verified and the token used, any repeat of the
same token fails and changes nothing. -/
theorem verify_email_token_single_use
    (users : List UserRow) (tokens : List EmailVerificationToken)
    (tok email : String) (user : UserRow) (now now' : Nat)
    (hnodupT : (tokens.map (fun t => t.token)).Nodup) :
    (∀ vt ∈ tokens, (vt.is_used = true ∨ ¬ now < vt.expiry_date) →
      verify_email_token users tokens vt.token now = ((users, tokens), false)) ∧
    ((∀ t ∈ tokens, t.token ≠ tok) → get_user_by_email users email = some user →
      now' < now + verificationTokenTTL →
      ∃ users2 tokens2,
        verify_email_token users (create_verification_token tokens email tok now).1 tok now'
          = ((users2, tokens2), true) ∧
        get_user_by_email users2 email = some { user with is_verified := true } ∧
        (∀ t2 ∈ tokens2, t2.token = tok → t2.is_used = true) ∧
        (∀ now2, verify_email_token users2 tokens2 tok now2 = ((users2, tokens2), false))) := by
  constructor
  · -- stale or used tokens fail, leaving both tables unchanged
    intro vt hvt hbad
    have hnone : tokens.find? (fun t =>
        decide (t.token = vt.token ∧ t.is_used = false ∧ now < t.expiry_date)) = none := by
      rw [List.find?_eq_none]
      intro t ht hdec
      rw [decide_eq_true_eq] at hdec
      have htv : t = vt := eq_of_mem_of_nodup_key hnodupT ht hvt hdec.1
      rcases hbad with h | h
      · rw [htv, h] at hdec
        exact Bool.noConfusion hdec.2.1
      · exact h (htv ▸ hdec.2.2)
    unfold verify_email_token
    rw [hnone]
  · -- the fresh-token life cycle
    intro hfresh huser hnow'
    have huem : user.email = email := by
      have := List.find?_some huser
      simpa using this
    have hfind1 : ((create_verification_token tokens email tok now).1).find?
        (fun t => decide (t.token = tok ∧ t.is_used = false ∧ now' < t.expiry_date)) =
        some { token := tok, email := email, expiry_date := now + verificationTokenTTL } := by
      have hred : (create_verification_token tokens email tok now).1 =
          tokens.filter (fun t => decide (t.email ≠ email)) ++
            [{ token := tok, email := email, expiry_date := now + verificationTokenTTL }] := rfl
      rw [hred, List.find?_append]
      have h1 : (tokens.filter (fun t => decide (t.email ≠ email))).find?
          (fun t => decide (t.token = tok ∧ t.is_used = false ∧ now' < t.expiry_date)) = none := by
        rw [List.find?_eq_none]
        intro t ht hdec
        rw [decide_eq_true_eq] at hdec
        exact hfresh t (List.mem_of_mem_filter ht) hdec.1
      rw [h1]
      simp [List.find?, hnow']
    have e1 : verify_email_token users (create_verification_token tokens email tok now).1 tok now'
        = ((users.map (fun u =>
              if decide (u.email = email) then { u with is_verified := true } else u),
            ((create_verification_token tokens email tok now).1).map (fun t =>
              if decide (t.token = tok) then { t with is_used := true } else t)),
           true) := by
      unfold verify_email_token
      rw [hfind1]
      dsimp only
      rw [huser]
    refine ⟨_, _, e1, ?_, ?_, ?_⟩
    · exact find?_map_modify users user (fun u => { u with is_verified := true }) huser
        (decide_eq_true huem)
    · intro t2 ht2 htk
      rcases List.mem_map.1 ht2 with ⟨t1, ht1, hft⟩
      by_cases h : t1.token = tok
      · rw [← hft, if_pos (decide_eq_true h)]
      · have : t2.token = t1.token := by rw [← hft, if_neg (by simpa using h)]
        exact absurd (by rw [← this]; exact htk) h
    · intro now2
      have hnone2 : (((create_verification_token tokens email tok now).1).map (fun t =>
          if decide (t.token = tok) then { t with is_used := true } else t)).find?
          (fun t => decide (t.token = tok ∧ t.is_used = false ∧ now2 < t.expiry_date)) = none := by
        rw [List.find?_eq_none]
        intro t2 ht2 hdec
        rw [decide_eq_true_eq] at hdec
        rcases List.mem_map.1 ht2 with ⟨t1, ht1, hft⟩
        by_cases h : t1.token = tok
        · have hused : t2.is_used = true := by rw [← hft, if_pos (decide_eq_true h)]
          rw [hdec.2.1] at hused
          exact Bool.noConfusion hused
        · have : t2.token = t1.token := by rw [← hft, if_neg (by simpa using h)]
          exact h (by rw [← this]; exact hdec.1)
      unfold verify_email_token
      rw [hnone2]

/-- Concrete registered user for the C4 witness. -/
def c4_user : UserRow :=
  { id := 7, email := "ann@example.com", password := "hash", name := "Ann", slug := "ann" }

/-- Concrete already-used verification token for the C4 witness. -/
def c4_old_token : EmailVerificationToken :=
  { token := "OLD", email := "ann@example.com", expiry_date := 1000, is_used := true }

/-- Witness for C4: the used token fails and changes nothing; issuing a fresh
token at time 10 and verifying it at time 20 succeeds, marks user and token,
and every repeat of the token fails. -/
theorem verify_email_token_single_use_witness :
    verify_email_token [c4_user] [c4_old_token] "OLD" 10
      = (([c4_user], [c4_old_token]), false) ∧
    ∃ users2 tokens2,
      verify_email_token [c4_user]
          (create_verification_token [c4_old_token] "ann@example.com" "T" 10).1 "T" 20
        = ((users2, tokens2), true) ∧
      get_user_by_email users2 "ann@example.com" = some { c4_user with is_verified := true } ∧
      (∀ t2 ∈ tokens2, t2.token = "T" → t2.is_used = true) ∧
      (∀ now2, verify_email_token users2 tokens2 "T" now2 = ((users2, tokens2), false)) := by
  have h := verify_email_token_single_use [c4_user] [c4_old_token] "T" "ann@example.com"
    c4_user 10 20 (by decide)
  exact ⟨h.1 c4_old_token (by decide) (Or.inl rfl), h.2 (by decide) (by decide) (by decide)⟩

/-! ## AuthService.create_user -/

/-- Pydantic schema `UserCreate` (schemas/user.py). -/
structure UserCreate where
  email : String
  password : String
  name : String
  slug : String
  bio : Option String := none
  deriving DecidableEq, Repr

/-- `AuthService.create_user` (services/auth_service.py): duplicate-email
check first, then duplicate-slug check, both answered with 400 before
anything is inserted; only then is the row built and added.  The bio and
gallery-title copies land in columns omitted from `UserRow`.  (The source
also reads `user_create.role`, a field the `UserCreate` schema does not
define, so the insert path would raise `AttributeError` at runtime; the
rejection paths verified here run before that read.) -/
def create_user (users : List UserRow) (user_create : UserCreate)
    (hashed_password : String) (new_id : Nat) : List UserRow × Except Nat UserRow :=
  if (get_user_by_email users user_create.email).isSome then (users, Except.error 400)
  else if (get_user_by_slug users user_create.slug).isSome then (users, Except.error 400)
  else
    let db_user : UserRow :=
      { id := new_id
        email := user_create.email
        password := hashed_password
        name := user_create.name
        slug := user_create.slug }
    (users ++ [db_user], Except.ok db_user)

/-- C6: registering with the email of an existing user fails with 400 before
any insert, so the user table is returned unchanged. -/
theorem create_user_duplicate_email_unchanged
    (users : List UserRow) (uc : UserCreate) (hashed : String) (new_id : Nat)
    (u : UserRow) (hu : u ∈ users) (hemail : u.email = uc.email) :
    create_user users uc hashed new_id = (users, Except.error 400) := by
  have hsome : (get_user_by_email users uc.email).isSome := by
    unfold get_user_by_email
    rw [List.find?_isSome]
    exact ⟨u, hu, decide_eq_true hemail⟩
  unfold create_user
  rw [if_pos hsome]

/-- Concrete registered user for the C6 witness. -/
def c6_user : UserRow :=
  { id := 3, email := "bob@example.com", password := "h", name := "Bob", slug := "bob" }

/-- Concrete registration payload reusing Bob's email. -/
def c6_create : UserCreate :=
  { email := "bob@example.com", password := "pw", name := "Bobby", slug := "bobby" }

/-- Witness for C6: the duplicate registration is rejected and the table is
unchanged. -/
theorem create_user_duplicate_email_unchanged_witness :
    create_user [c6_user] c6_create "hashed" 4 = ([c6_user], Except.error 400) :=
  create_user_duplicate_email_unchanged [c6_user] c6_create "hashed" 4 c6_user
    (by decide) rfl

/-! ## AuthService.generate_unique_slug -/

/-- The `while AuthService.get_user_by_slug(db, slug): slug = original-counter;
counter += 1` loop of `generate_unique_slug`.  The Python loop terminates
because only finitely many slugs are taken; the embedding makes that explicit
with a fuel argument, and the theorem about it requires only enough fuel for
the suffix it reaches. -/
def slugLoop (users : List UserRow) (original slug : String) (counter : Nat) :
    Nat → String
  | 0 => slug
  | fuel + 1 =>
    if (get_user_by_slug users slug).isSome then
      slugLoop users original (original ++ "-" ++ Nat.repr counter) (counter + 1) fuel
    else slug

/-- `AuthService.generate_unique_slug` (services/auth_service.py): lowercase,
spaces to hyphens, then the first free slug among
`original, original-1, original-2, ...`.  The fuel `users.length + 1` covers
every suffix the loop can need, since at most `users.length` slugs are
taken. -/
def generate_unique_slug (users : List UserRow) (base_slug : String) : String :=
  let original_slug := pyReplaceSpaceDash (pyLower base_slug)
  slugLoop users original_slug original_slug 1 (users.length + 1)

/-- Helper for C7: once the loop stands at suffix `j` with every suffix in
`[j, k)` taken and suffix `k` free, it returns suffix `k`. -/
theorem slugLoop_reaches (users : List UserRow) (original : String) (k : Nat)
    (hfree : (get_user_by_slug users (original ++ "-" ++ Nat.repr k)).isSome = false) :
    ∀ fuel j, 1 ≤ j → j ≤ k →
      (∀ i, j ≤ i → i < k →
        (get_user_by_slug users (original ++ "-" ++ Nat.repr i)).isSome = true) →
      k + 1 - j ≤ fuel →
      slugLoop users original (original ++ "-" ++ Nat.repr j) (j + 1) fuel
        = original ++ "-" ++ Nat.repr k := by
  intro fuel
  induction fuel with
  | zero =>
    intro j h1 hjk htaken hfuel
    omega
  | succ fuel ih =>
    intro j h1 hjk htaken hfuel
    by_cases hjk' : j = k
    · subst hjk'
      simp [slugLoop, hfree]
    · have hjlt : j < k := lt_of_le_of_ne hjk hjk'
      have htj := htaken j le_rfl hjlt
      rw [slugLoop, if_pos htj]
      exact ih (j + 1) (by omega) (by omega)
        (fun i hi hik => htaken i (by omega) hik) (by omega)

/-- C7: `generate_unique_slug` lowercases the base, replaces spaces with
hyphens, and appends the smallest positive suffix `k` that is free, provided
the unsuffixed slug and all smaller suffixes are taken (the fuel bound
`k ≤ users.length` always holds in reality, because the taken slugs are
pairwise distinct slugs of stored users). -/
theorem generate_unique_slug_smallest_suffix
    (users : List UserRow) (base_slug : String) (k : Nat)
    (hk1 : 1 ≤ k) (hkn : k ≤ users.length)
    (horig : (get_user_by_slug users (pyReplaceSpaceDash (pyLower base_slug))).isSome = true)
    (htaken : ∀ i, 1 ≤ i → i < k →
      (get_user_by_slug users
        (pyReplaceSpaceDash (pyLower base_slug) ++ "-" ++ Nat.repr i)).isSome = true)
    (hfree : (get_user_by_slug users
      (pyReplaceSpaceDash (pyLower base_slug) ++ "-" ++ Nat.repr k)).isSome = false) :
    generate_unique_slug users base_slug =
      pyReplaceSpaceDash (pyLower base_slug) ++ "-" ++ Nat.repr k := by
  unfold generate_unique_slug
  rw [slugLoop, if_pos horig]
  exact slugLoop_reaches users (pyReplaceSpaceDash (pyLower base_slug)) k hfree
    users.length 1 le_rfl hk1 (fun i hi hik => htaken i hi hik) (by omega)

/-- The two stored users of the C7 witness, holding slugs `park` and
`park-1`. -/
def c7_users : List UserRow :=
  [{ id := 1, email := "p1@example.com", password := "h", name := "P One", slug := "park" },
   { id := 2, email := "p2@example.com", password := "h", name := "P Two", slug := "park-1" }]

/-- Witness for C7: with `park` and `park-1` taken, `Park` becomes
`park-2`. -/
theorem generate_unique_slug_smallest_suffix_witness :
    generate_unique_slug c7_users "Park" = "park-2" := by
  have h := generate_unique_slug_smallest_suffix c7_users "Park" 2 (by decide) (by decide)
    (by decide)
    (by
      intro i h1 h2
      have hi1 : i = 1 := by omega
      subst hi1
      decide)
    (by decide)
  rw [h]
  decide

/-! ## ArtworkService.get_user_artwork_stats -/

/-- Lexicographic (code-point) order on strings, as Python compares them. -/
def charListLe : List Char → List Char → Bool
  | [], _ => true
  | _ :: _, [] => false
  | a :: as, b :: bs =>
    if a.toNat < b.toNat then true
    else if b.toNat < a.toNat then false
    else charListLe as bs

/-- Python string `<=`, used by `sorted`. -/
def pyStrLe (a b : String) : Bool := charListLe a.data b.data

/-- Insertion into an ascending list. -/
def insertSortedStr (s : String) : List String → List String
  | [] => [s]
  | x :: xs => if pyStrLe s x then s :: x :: xs else x :: insertSortedStr s xs

/-- Python `sorted(list(set(l)))`: the distinct elements of `l` in ascending
code-point order. -/
def pySortedSet (l : List String) : List String :=
  l.dedup.foldr insertSortedStr []

/-- Response schema `UserArtworkStats` (schemas/artwork.py).  The two artwork
picks are `ArtworkCardResponse` projections in the source; the embedding
keeps the full row. -/
structure UserArtworkStats where
  total_artworks : Nat
  completed_artworks : Nat
  work_in_progress : Nat
  archived_artworks : Nat
  total_views : Nat
  total_likes : Nat
  total_histories : Nat
  most_viewed_artwork : Option Artwork
  recent_artwork : Option Artwork
  years_active : List String
  mediums_used : List String
  deriving DecidableEq, Repr

/-- `ArtworkService.get_user_artwork_stats` (services/artwork_service.py):
loads every artwork of the user and reduces in memory; the most-viewed pick
is `max(artworks, key=view_count)` guarded by `view_count > 0`, the recent
pick is `max(artworks, key=created_at)`; `total_histories` counts history
rows joined to the user's artworks; the year and medium summaries keep
truthy values only (`if artwork.year`). -/
def get_user_artwork_stats (artworks_table : List Artwork)
    (histories : List ArtworkHistoryRow) (user_id : Nat) : UserArtworkStats :=
  let artworks := artworks_table.filter (fun a => decide (a.user_id = user_id))
  { total_artworks := artworks.length
    completed_artworks :=
      (artworks.filter (fun a => decide (a.status = ArtworkStatus.COMPLETED))).length
    work_in_progress :=
      (artworks.filter (fun a => decide (a.status = ArtworkStatus.WORK_IN_PROGRESS))).length
    archived_artworks :=
      (artworks.filter (fun a => decide (a.status = ArtworkStatus.ARCHIVED))).length
    total_views := (artworks.map (fun a => a.view_count)).sum
    total_likes := (artworks.map (fun a => a.like_count)).sum
    total_histories := (histories.filter (fun h =>
      artworks_table.any (fun a => decide (a.id = h.artwork_id ∧ a.user_id = user_id)))).length
    most_viewed_artwork :=
      match pyMaxBy (fun a => a.view_count) artworks with
      | some most_viewed =>
          if most_viewed.view_count > 0 then some most_viewed else none
      | none => none
    recent_artwork := pyMaxBy (fun a => a.created_at) artworks
    years_active := pySortedSet (artworks.filterMap (fun a =>
      match a.year with
      | some y => if y ≠ "" then some y else none
      | none => none))
    mediums_used := pySortedSet (artworks.filterMap (fun a =>
      match a.medium with
      | some m => if m ≠ "" then some m else none
      | none => none)) }

/-- The Python `max(xs, key=k)` candidate fold keeps a member of the inputs
whose key dominates accumulator and inputs. -/
theorem foldl_pymax {α : Type} (k : α → Nat) (xs : List α) :
    ∀ acc : α,
      (xs.foldl (fun acc y => if k y > k acc then y else acc) acc = acc ∨
        xs.foldl (fun acc y => if k y > k acc then y else acc) acc ∈ xs) ∧
      k acc ≤ k (xs.foldl (fun acc y => if k y > k acc then y else acc) acc) ∧
      ∀ x ∈ xs, k x ≤ k (xs.foldl (fun acc y => if k y > k acc then y else acc) acc) := by
  induction xs with
  | nil => intro acc; simp
  | cons y ys ih =>
    intro acc
    rw [List.foldl_cons]
    by_cases hy : k y > k acc
    · rw [if_pos hy]
      rcases ih y with ⟨hmem, hacc, hall⟩
      refine ⟨?_, ?_, ?_⟩
      · rcases hmem with h | h
        · exact Or.inr (by rw [h]; exact List.mem_cons_self y ys)
        · exact Or.inr (List.mem_cons_of_mem y h)
      · exact le_trans (le_of_lt hy) hacc
      · intro x hx
        rcases List.mem_cons.1 hx with rfl | hx'
        · exact hacc
        · exact hall x hx'
    · rw [if_neg hy]
      rcases ih acc with ⟨hmem, hacc, hall⟩
      refine ⟨?_, hacc, ?_⟩
      · rcases hmem with h | h
        · exact Or.inl h
        · exact Or.inr (List.mem_cons_of_mem y h)
      · intro x hx
        rcases List.mem_cons.1 hx with rfl | hx'
        · exact le_trans (le_of_not_lt hy) hacc
        · exact hall x hx'

/-- `pyMaxBy` returns a member whose key dominates the list. -/
theorem pyMaxBy_spec {α : Type} (k : α → Nat) (l : List α) (m : α)
    (h : pyMaxBy k l = some m) : m ∈ l ∧ ∀ x ∈ l, k x ≤ k m := by
  cases l with
  | nil => simp [pyMaxBy] at h
  | cons x xs =>
    have hm : xs.foldl (fun acc y => if k y > k acc then y else acc) x = m := by
      simpa [pyMaxBy] using h
    rcases foldl_pymax k xs x with ⟨hmem, hacc, hall⟩
    rw [hm] at hmem hacc hall
    constructor
    · rcases hmem with h' | h'
      · exact (by rw [h']; exact List.mem_cons_self x xs)
      · exact List.mem_cons_of_mem x h'
    · intro z hz
      rcases List.mem_cons.1 hz with rfl | hz'
      · exact hacc
      · exact hall z hz'

/-- `pyMaxBy` is `none` exactly on the empty list. -/
theorem pyMaxBy_eq_none {α : Type} (k : α → Nat) (l : List α) :
    pyMaxBy k l = none ↔ l = [] := by
  cases l <;> simp [pyMaxBy]

/-- C8: with zero artworks every aggregate is zero and both picks are empty;
with at least one artwork, all of positive pairwise-distinct view counts,
the most-viewed pick is the artwork with the maximum view count and the
recent pick has the maximum creation time. -/
theorem get_user_artwork_stats_spec
    (artworks_table : List Artwork) (histories : List ArtworkHistoryRow) (user_id : Nat) :
    (artworks_table.filter (fun a => decide (a.user_id = user_id)) = [] →
      get_user_artwork_stats artworks_table histories user_id =
        { total_artworks := 0, completed_artworks := 0, work_in_progress := 0,
          archived_artworks := 0, total_views := 0, total_likes := 0,
          total_histories := 0, most_viewed_artwork := none, recent_artwork := none,
          years_active := [], mediums_used := [] }) ∧
    (artworks_table.filter (fun a => decide (a.user_id = user_id)) ≠ [] →
      (∀ x ∈ artworks_table.filter (fun a => decide (a.user_id = user_id)),
        0 < x.view_count) →
      (∀ x ∈ artworks_table.filter (fun a => decide (a.user_id = user_id)),
        ∀ y ∈ artworks_table.filter (fun a => decide (a.user_id = user_id)),
          x ≠ y → x.view_count ≠ y.view_count) →
      (∃ m, (get_user_artwork_stats artworks_table histories user_id).most_viewed_artwork
            = some m ∧
          m ∈ artworks_table.filter (fun a => decide (a.user_id = user_id)) ∧
          ∀ x ∈ artworks_table.filter (fun a => decide (a.user_id = user_id)),
            x ≠ m → x.view_count < m.view_count) ∧
      (∃ r, (get_user_artwork_stats artworks_table histories user_id).recent_artwork
            = some r ∧
          r ∈ artworks_table.filter (fun a => decide (a.user_id = user_id)) ∧
          ∀ x ∈ artworks_table.filter (fun a => decide (a.user_id = user_id)),
            x.created_at ≤ r.created_at)) := by
  constructor
  · intro hempty
    have hhist : histories.filter (fun h =>
        artworks_table.any (fun a => decide (a.id = h.artwork_id ∧ a.user_id = user_id)))
        = [] := by
      rw [List.filter_eq_nil_iff]
      intro h hmem hany
      rw [List.any_eq_true] at hany
      rcases hany with ⟨a, ha, hdec⟩
      rw [decide_eq_true_eq] at hdec
      have : a ∈ artworks_table.filter (fun a => decide (a.user_id = user_id)) :=
        List.mem_filter.2 ⟨ha, decide_eq_true hdec.2⟩
      rw [hempty] at this
      exact absurd this (List.not_mem_nil a)
    unfold get_user_artwork_stats
    rw [hempty]
    simp only [hhist, pyMaxBy, pySortedSet]
    simp
  · intro hne hpos hdist
    constructor
    · cases hL : pyMaxBy (fun a => a.view_count)
          (artworks_table.filter (fun a => decide (a.user_id = user_id))) with
      | none => exact absurd ((pyMaxBy_eq_none _ _).1 hL) hne
      | some m =>
        rcases pyMaxBy_spec _ _ _ hL with ⟨hmem, hall⟩
        refine ⟨m, ?_, hmem, ?_⟩
        · unfold get_user_artwork_stats
          dsimp only
          rw [hL]
          show (if m.view_count > 0 then some m else none) = some m
          rw [if_pos (hpos m hmem)]
        · intro x hx hxm
          exact lt_of_le_of_ne (hall x hx) (hdist x hx m hmem hxm)
    · cases hR : pyMaxBy (fun a => a.created_at)
          (artworks_table.filter (fun a => decide (a.user_id = user_id))) with
      | none => exact absurd ((pyMaxBy_eq_none _ _).1 hR) hne
      | some r =>
        rcases pyMaxBy_spec _ _ _ hR with ⟨hmem, hall⟩
        refine ⟨r, ?_, hmem, hall⟩
        unfold get_user_artwork_stats
        dsimp only
        rw [hR]

/-- Concrete artworks of user 7 with distinct positive view counts for the C8
witness. -/
def c8_a1 : Artwork := { id := 1, user_id := 7, title := "A", view_count := 5, created_at := 100 }

/-- Second concrete artwork of user 7 for the C8 witness. -/
def c8_a2 : Artwork := { id := 2, user_id := 7, title := "B", view_count := 3, created_at := 200 }

/-- Witness for C8: user 9 owns nothing, so the stats are all zero with no
picks; for user 7's two artworks the picks obey the max properties. -/
theorem get_user_artwork_stats_spec_witness :
    get_user_artwork_stats [c8_a1] [] 9 =
      { total_artworks := 0, completed_artworks := 0, work_in_progress := 0,
        archived_artworks := 0, total_views := 0, total_likes := 0,
        total_histories := 0, most_viewed_artwork := none, recent_artwork := none,
        years_active := [], mediums_used := [] } ∧
    (∃ m, (get_user_artwork_stats [c8_a1, c8_a2] [] 7).most_viewed_artwork = some m ∧
      m ∈ [c8_a1, c8_a2].filter (fun a => decide (a.user_id = 7)) ∧
      ∀ x ∈ [c8_a1, c8_a2].filter (fun a => decide (a.user_id = 7)),
        x ≠ m → x.view_count < m.view_count) ∧
    (∃ r, (get_user_artwork_stats [c8_a1, c8_a2] [] 7).recent_artwork = some r ∧
      r ∈ [c8_a1, c8_a2].filter (fun a => decide (a.user_id = 7)) ∧
      ∀ x ∈ [c8_a1, c8_a2].filter (fun a => decide (a.user_id = 7)),
        x.created_at ≤ r.created_at) := by
  have h1 := (get_user_artwork_stats_spec [c8_a1] [] 9).1 (by decide)
  have h2 := (get_user_artwork_stats_spec [c8_a1, c8_a2] [] 7).2 (by decide)
    (by decide) (by decide)
  exact ⟨h1, h2.1, h2.2⟩

/-! ## AuthService refresh tokens -/

/-- Row of the refresh-token table.
Modelled from the spec: `models/refresh_token.py`, imported by
services/auth_service.py, is not under src/.  The spec describes the rows as
opaque random tokens with expiry plus revocation ("refresh-token issue/verify
(invalidates prior tokens for the user on reissue)", "no token revocation
list beyond the single-row refresh-token table").  Fields follow the
service's usage: `token`, `user_id`, `expires_at`, an `is_revoked` flag that
defaults to false on insert, and a `user` relationship resolved by user
id. -/
structure RefreshToken where
  token : String
  user_id : Nat
  expires_at : Nat
  is_revoked : Bool := false
  deriving DecidableEq, Repr

/-- The `timedelta(days=REFRESH_TOKEN_EXPIRE_DAYS)` = 7-day validity window,
in seconds. -/
def refreshTokenTTL : Nat := 7 * 24 * 60 * 60

/-- `AuthService.create_refresh_token` (services/auth_service.py): bulk
`.update({"is_revoked": True})` on the user's non-revoked tokens, then insert
a fresh token expiring in 7 days. -/
def create_refresh_token (rtokens : List RefreshToken) (user_id : Nat)
    (tok : String) (now : Nat) : List RefreshToken × String :=
  let rtokens := rtokens.map (fun t =>
    if decide (t.user_id = user_id ∧ t.is_revoked = false) then
      { t with is_revoked := true } else t)
  (rtokens ++ [{ token := tok, user_id := user_id, expires_at := now + refreshTokenTTL }],
   tok)

/-- `AuthService.verify_refresh_token` (services/auth_service.py): a
non-revoked, unexpired row with the token string, answered with its `user`
relationship. -/
def verify_refresh_token (rtokens : List RefreshToken) (users : List UserRow)
    (token : String) (now : Nat) : Option UserRow :=
  match rtokens.find? (fun t =>
      decide (t.token = token ∧ t.is_revoked = false ∧ now < t.expires_at)) with
  | none => none
  | some rt => users.find? (fun u => decide (u.id = rt.user_id))

/-- C9: after a reissue the user holds exactly one non-revoked refresh token,
and every token issued to the user before the reissue fails verification. -/
theorem create_refresh_token_revokes_prior
    (rtokens : List RefreshToken) (users : List UserRow) (user_id : Nat)
    (tok : String) (now : Nat)
    (hnodup : (rtokens.map (fun t => t.token)).Nodup)
    (hfresh : ∀ t ∈ rtokens, t.token ≠ tok) :
    ((create_refresh_token rtokens user_id tok now).1.filter
        (fun t => decide (t.user_id = user_id ∧ t.is_revoked = false))).length = 1 ∧
    (∀ rt ∈ rtokens, rt.user_id = user_id →
      ∀ now2, verify_refresh_token (create_refresh_token rtokens user_id tok now).1 users
        rt.token now2 = none) := by
  have hred : (create_refresh_token rtokens user_id tok now).1 =
      (rtokens.map (fun t =>
        if decide (t.user_id = user_id ∧ t.is_revoked = false) then
          { t with is_revoked := true } else t)) ++
      [{ token := tok, user_id := user_id, expires_at := now + refreshTokenTTL }] := rfl
  constructor
  · rw [hred, List.filter_append]
    have h1 : (rtokens.map (fun t =>
        if decide (t.user_id = user_id ∧ t.is_revoked = false) then
          { t with is_revoked := true } else t)).filter
        (fun t => decide (t.user_id = user_id ∧ t.is_revoked = false)) = [] := by
      rw [List.filter_eq_nil_iff]
      intro t2 ht2 hdec
      rw [decide_eq_true_eq] at hdec
      rcases List.mem_map.1 ht2 with ⟨t1, ht1, hft⟩
      by_cases hmatch : t1.user_id = user_id ∧ t1.is_revoked = false
      · have : t2.is_revoked = true := by rw [← hft, if_pos (decide_eq_true hmatch)]
        rw [hdec.2] at this
        exact Bool.noConfusion this
      · have : t2 = t1 := by rw [← hft, if_neg (by simpa using hmatch)]
        exact hmatch (this ▸ hdec)
    rw [h1]
    simp
  · intro rt hrt hruid now2
    have hnone : ((create_refresh_token rtokens user_id tok now).1).find?
        (fun t => decide (t.token = rt.token ∧ t.is_revoked = false ∧
          now2 < t.expires_at)) = none := by
      rw [hred, List.find?_eq_none]
      intro t2 ht2 hdec
      rw [decide_eq_true_eq] at hdec
      rcases List.mem_append.1 ht2 with ht2' | ht2'
      · rcases List.mem_map.1 ht2' with ⟨t1, ht1, hft⟩
        by_cases hmatch : t1.user_id = user_id ∧ t1.is_revoked = false
        · have : t2.is_revoked = true := by rw [← hft, if_pos (decide_eq_true hmatch)]
          rw [hdec.2.1] at this
          exact Bool.noConfusion this
        · have ht2t1 : t2 = t1 := by rw [← hft, if_neg (by simpa using hmatch)]
          have ht1rt : t1 = rt :=
            eq_of_mem_of_nodup_key hnodup ht1 hrt (by rw [← ht2t1, hdec.1])
          apply hmatch
          rw [ht1rt, hruid]
          refine ⟨rfl, ?_⟩
          rw [← ht1rt, ← ht2t1]
          exact hdec.2.1
      · rw [List.mem_singleton.1 ht2'] at hdec
        exact hfresh rt hrt hdec.1.symm
    unfold verify_refresh_token
    rw [hnone]

/-- Concrete live refresh token of user 7 for the C9 witness. -/
def c9_old : RefreshToken := { token := "R1", user_id := 7, expires_at := 1000000000 }

/-- Witness for C9: reissuing for user 7 leaves exactly one non-revoked token
and the prior token no longer verifies. -/
theorem create_refresh_token_revokes_prior_witness :
    ((create_refresh_token [c9_old] 7 "R2" 100).1.filter
        (fun t => decide (t.user_id = 7 ∧ t.is_revoked = false))).length = 1 ∧
    verify_refresh_token (create_refresh_token [c9_old] 7 "R2" 100).1 [c4_user]
      "R1" 500 = none := by
  have h := create_refresh_token_revokes_prior [c9_old] [c4_user] 7 "R2" 100
    (by decide) (by decide)
  exact ⟨h.1, h.2 c9_old (by decide) rfl 500⟩

/-! ## routers/auth.py: get_current_user and get_current_user_required -/

/-- A decoded JWT payload as the dependencies consume it: only
`payload.get("sub")` is read. -/
structure TokenPayload where
  sub : Option String
  deriving DecidableEq, Repr

/-- Dependency `get_current_user` (routers/auth.py): optional
authentication.  `AuthService.verify_token` (and the `except` wrapper of the
dependency) is abstracted as a function `verify` answering `none` on any
missing, malformed or expired token.  Every failure path returns `none` — the
function is total and never raises. -/
def get_current_user (users : List UserRow) (verify : String → Option TokenPayload)
    (credentials : Option String) : Option UserRow :=
  match credentials with
  | none => none
  | some tok =>
      match verify tok with
      | none => none
      | some payload =>
          match payload.sub with
          | none => none
          | some email => get_user_by_email users email

/-- Dependency `get_current_user_required` (routers/auth.py): same lookup,
but every failure raises `HTTPException(401)`. -/
def get_current_user_required (users : List UserRow)
    (verify : String → Option TokenPayload) (credentials : String) :
    Except Nat UserRow :=
  match verify credentials with
  | none => Except.error 401
  | some payload =>
      match payload.sub with
      | none => Except.error 401
      | some email =>
          match get_user_by_email users email with
          | none => Except.error 401
          | some user => Except.ok user

/-- C10: the optional dependency answers `none` (anonymous) on every failure
path — absent, rejected or sub-less token, unknown user — while the required
variant answers 401 on each of those, and both agree on success. -/
theorem get_current_user_optional_never_401
    (users : List UserRow) (verify : String → Option TokenPayload) (tok : String) :
    get_current_user users verify none = none ∧
    (verify tok = none →
      get_current_user users verify (some tok) = none ∧
      get_current_user_required users verify tok = Except.error 401) ∧
    (∀ payload, verify tok = some payload → payload.sub = none →
      get_current_user users verify (some tok) = none ∧
      get_current_user_required users verify tok = Except.error 401) ∧
    (∀ payload email, verify tok = some payload → payload.sub = some email →
      get_user_by_email users email = none →
      get_current_user users verify (some tok) = none ∧
      get_current_user_required users verify tok = Except.error 401) ∧
    (∀ u, get_current_user users verify (some tok) = some u →
      get_current_user_required users verify tok = Except.ok u) := by
  refine ⟨rfl, ?_, ?_, ?_, ?_⟩
  · intro hv
    exact ⟨by simp [get_current_user, hv], by simp [get_current_user_required, hv]⟩
  · intro payload hv hsub
    exact ⟨by simp [get_current_user, hv, hsub],
      by simp [get_current_user_required, hv, hsub]⟩
  · intro payload email hv hsub huser
    exact ⟨by simp [get_current_user, hv, hsub, huser],
      by simp [get_current_user_required, hv, hsub, huser]⟩
  · intro u hu
    simp only [get_current_user] at hu
    simp only [get_current_user_required]
    cases hv : verify tok with
    | none => simp [hv] at hu
    | some payload =>
        simp only [hv] at hu ⊢
        cases hsub : payload.sub with
        | none => simp [hsub] at hu
        | some email =>
            simp only [hsub] at hu ⊢
            simp only [hu]

/-- Concrete verifier for the C10 witness: one valid token with a subject,
one token whose payload has no subject, everything else rejected. -/
def c10_verify : String → Option TokenPayload := fun t =>
  if t = "good" then some { sub := some "ann@example.com" }
  else if t = "nosub" then some { sub := none }
  else none

/-- Witness for C10 on a concrete user table and verifier: anonymous,
rejected and sub-less tokens give `none` from the optional dependency and 401
from the required one; the valid token resolves the user. -/
theorem get_current_user_optional_never_401_witness :
    get_current_user [c4_user] c10_verify none = none ∧
    get_current_user [c4_user] c10_verify (some "bad") = none ∧
    get_current_user_required [c4_user] c10_verify "bad" = Except.error 401 ∧
    get_current_user [c4_user] c10_verify (some "nosub") = none ∧
    get_current_user_required [c4_user] c10_verify "nosub" = Except.error 401 ∧
    get_current_user_required [c4_user] c10_verify "good" = Except.ok c4_user := by
  have h1 := get_current_user_optional_never_401 [c4_user] c10_verify "bad"
  have h2 := get_current_user_optional_never_401 [c4_user] c10_verify "nosub"
  have h3 := get_current_user_optional_never_401 [c4_user] c10_verify "good"
  refine ⟨h1.1, (h1.2.1 (by decide)).1, (h1.2.1 (by decide)).2, ?_, ?_, ?_⟩
  · exact (h2.2.2.1 { sub := none } (by decide) rfl).1
  · exact (h2.2.2.1 { sub := none } (by decide) rfl).2
  · exact h3.2.2.2.2 c4_user (by decide)

/-! ## HistoryService.extract_youtube_video_id -/

/-- Characters excluded by the capture class of the YouTube regex, which
captures eleven characters not in `"`, `&`, `?`, `/` or whitespace (ASCII
whitespace; the URLs involved are ASCII). -/
def notCapChar (c : Char) : Bool :=
  decide (c = '"' ∨ c = '&' ∨ c = '?' ∨ c = '/' ∨ c = ' ' ∨ c = '\t' ∨ c = '\n' ∨
    c = '\r' ∨ c = '\x0b' ∨ c = '\x0c')

/-- The capture group: exactly eleven admissible characters from here. -/
def cap11 (cs : List Char) : Option String :=
  let t := cs.take 11
  if t.length = 11 ∧ t.all (fun c => !(notCapChar c)) then some (String.mk t) else none

/-- Backtracking over the number of characters a greedy quantifier consumes,
longest first; `k` continues the match after the consumed prefix. -/
def tryLens {γ : Type} (cs : List Char) (lens : List Nat) (k : List Char → Option γ) :
    Option γ :=
  match lens with
  | [] => none
  | n :: rest =>
      match k (cs.drop n) with
      | some r => some r
      | none => tryLens cs rest k

/-- Candidate lengths `n, n-1, ..., 1` for a greedy one-or-more quantifier. -/
def descToOne (n : Nat) : List Nat := (List.range n).reverse.map (fun i => i + 1)

/-- Candidate lengths `n, n-1, ..., 0` for a greedy zero-or-more quantifier. -/
def descToZero (n : Nat) : List Nat := (List.range (n + 1)).reverse

/-- The inner alternation of the regex after the literal `youtube.com/`:
a path `[^/]+/.+/`, or a `v/`, `embed/` or `e/` prefix, or a query
`.*[?&]v=`; each followed by the eleven-character capture.  Alternatives are
tried in the regex's written order, greedy quantifiers longest first, exactly
as the backtracking engine does. -/
def matchInnerYoutubeCom (cs : List Char) : Option String :=
  let altA :=
    tryLens cs (descToOne ((cs.takeWhile (fun c => !(decide (c = '/')))).length)) (fun cs1 =>
      match cs1 with
      | '/' :: cs2 =>
          tryLens cs2 (descToOne ((cs2.takeWhile (fun c => !(decide (c = '\n')))).length))
            (fun cs3 =>
              match cs3 with
              | '/' :: cs4 => cap11 cs4
              | _ => none)
      | _ => none)
  match altA with
  | some r => some r
  | none =>
      let altB :=
        if cs.take 2 = ['v', '/'] then cap11 (cs.drop 2)
        else if cs.take 6 = ['e', 'm', 'b', 'e', 'd', '/'] then cap11 (cs.drop 6)
        else if cs.take 2 = ['e', '/'] then cap11 (cs.drop 2)
        else none
      match altB with
      | some r => some r
      | none =>
          tryLens cs (descToZero ((cs.takeWhile (fun c => !(decide (c = '\n')))).length))
            (fun cs1 =>
              match cs1 with
              | c :: 'v' :: '=' :: cs2 =>
                  if c = '?' ∨ c = '&' then cap11 cs2 else none
              | _ => none)

/-- One attempt of the whole pattern at the current position: the literal
`youtube.com/` followed by the inner alternation, or the literal `youtu.be/`
followed directly by the capture. -/
def tryYoutubeAt (cs : List Char) : Option String :=
  if cs.take 12 = "youtube.com/".data then matchInnerYoutubeCom (cs.drop 12)
  else if cs.take 9 = "youtu.be/".data then cap11 (cs.drop 9)
  else none

/-- `re.search`: the pattern is attempted at each position, leftmost match
first. -/
def searchYoutube : List Char → Option String
  | [] => tryYoutubeAt []
  | c :: rest =>
      match tryYoutubeAt (c :: rest) with
      | some r => some r
      | none => searchYoutube rest

/-- `HistoryService.extract_youtube_video_id` (services/history_service.py):
`re.search` of the pattern
youtube.com/([^/]+/.+/|(v|e(mbed)?)/|.*[?&]v=) or youtu.be/ followed by a
capture of eleven characters outside `"&?/` and whitespace, returning the
capture group.  In the source the function sits inside `class HistoryService`
without a `@staticmethod` decorator; `create_history` refers to it as the
bare name `extract_youtube_video_id`, which Python cannot resolve from a
method body (class bodies are not an enclosing scope), so the call in
`create_history` raises `NameError` at runtime — see the C5 verdict. -/
def extract_youtube_video_id (url : String) : Option String :=
  searchYoutube url.data

/-- C5 (extraction half): the three documented URL shapes yield the
eleven-character id and a non-YouTube URL yields none. -/
theorem extract_youtube_video_id_forms :
    extract_youtube_video_id "https://www.youtube.com/watch?v=dQw4w9WgXcQ"
      = some "dQw4w9WgXcQ" ∧
    extract_youtube_video_id "https://youtu.be/dQw4w9WgXcQ" = some "dQw4w9WgXcQ" ∧
    extract_youtube_video_id "https://www.youtube.com/embed/dQw4w9WgXcQ"
      = some "dQw4w9WgXcQ" ∧
    extract_youtube_video_id "https://vimeo.com/123456789" = none := by
  refine ⟨?_, ?_, ?_, ?_⟩ <;> rfl
